import Mathlib

/-
Verification of the Gemini multimodal model wiring (src/gemini_torch/model.py).

The file shallowly embeds the one source file of the repository.  Tensors are
modelled by their shapes (the claims under scrutiny concern dispatch on the
presence of optional inputs, invocation traces, concatenation shapes, logging
and exception propagation, none of which depend on tensor contents).  The
external collaborators (the transformer/decoder stack built by the
`zeta`/`x-transformers` libraries and the two modality encoders defined in
`gemini_torch.utils`) are out of the specified core; they are modelled as
opaque fallible functions carried as fields of the model, exactly as the
source treats them: it only ever applies them.

Python exceptions are modelled with `Except String`; `print` output is
collected in a log (a `List String`).  Python's `print(a, b)` joins its
arguments with a single space, modelled by `pyPrint2`.
-/

namespace GeminiModel

/-- A tensor, abstracted to its shape (list of dimension sizes). -/
structure Tensor where
  shape : List Nat
deriving DecidableEq, Repr

/-- The exception raised by `text.shape` when `text` is `None`
(Python: AttributeError: NoneType object has no attribute shape). -/
def noneShapeMsg : String := "AttributeError: NoneType object has no attribute shape"

/-- The exception message raised by `torch.cat` on incompatible shapes. -/
def catMismatchMsg : String := "RuntimeError: Sizes of tensors must match except in dimension cat dim"

/-- Fixed first argument of the `print` in the `except` block of `Gemini.forward`. -/
def forwardFailMsg : String := "Failed in forward method: "

/-- Fixed first argument of the `print` in the `except` block of `Gemini.__init__`. -/
def geminiInitFailMsg : String := "Failed to initialize gemini: "

/-- Python `print(a, b)`: the two arguments joined by the default separator. -/
def pyPrint2 (a b : String) : String := a ++ " " ++ b

/-- Source `def exists(val): return val is not None`. -/
def existsOpt {α : Type} (val : Option α) : Bool := val.isSome

/-- Compatibility, for `torch.cat`, of a shape `s2` with the first shape `s` when
concatenating along dimension `d`: same rank, and equal sizes in every
dimension other than `d`. -/
def catCompatible (d : Nat) (s s2 : List Nat) : Bool :=
  s2.length == s.length && s2.eraseIdx d == s.eraseIdx d

/-- Result shape of `torch.cat` along dimension `d`, or `none` when the
concatenation raises: the list must be nonempty, `d` must be a valid
dimension, and all shapes must agree outside `d`; the sizes along `d` add. -/
def catShape (d : Nat) (shapes : List (List Nat)) : Option (List Nat) :=
  match shapes with
  | [] => none
  | s :: rest =>
    if d < s.length ∧ rest.all (catCompatible d s) then
      some (s.set d (shapes.foldl (fun acc s2 => acc + s2.getD d 0) 0))
    else none

/-- Model of `torch.cat(ts, dim=d)` on shape-abstracted tensors.  Python's
`torch.cat((a, b, c))` with no `dim` argument is `torchCat [a, b, c] 0`. -/
def torchCat (ts : List Tensor) (d : Nat) : Except String Tensor :=
  match catShape d (ts.map Tensor.shape) with
  | some sh => Except.ok (Tensor.mk sh)
  | none => Except.error catMismatchMsg

/-- The Gemini model after construction.  Its sub-modules are the opaque
external collaborators that `Gemini.forward` applies:
`img_to_text_embedding`, `audio_to_lang_embedding` and the autoregressive
`decoder` (taking the text tensor and the optional `prepend_embeds`). -/
structure Gemini where
  imgEncode : Tensor → Except String Tensor
  audioEncode : Tensor → Except String Tensor
  decode : Tensor → Option Tensor → Except String Tensor

/-- Observable outcome of the `try` block of `Gemini.forward`: how often each
encoder was invoked, every `torch.cat` invocation (argument list and dim),
every decoder invocation (text argument and `prepend_embeds` argument), and
the value returned or the exception raised. -/
structure BodyOut where
  imgEncCalls : Nat
  audioEncCalls : Nat
  cats : List (List Tensor × Nat)
  decoderCalls : List (Tensor × Option Tensor)
  result : Except String Tensor
deriving Repr

/-- Observable outcome of a full `Gemini.forward` call: the lines printed to
standard output, plus the trace fields of `BodyOut`. -/
structure FwdOut where
  log : List String
  imgEncCalls : Nat
  audioEncCalls : Nat
  cats : List (List Tensor × Nat)
  decoderCalls : List (Tensor × Option Tensor)
  result : Except String Tensor
deriving Repr

/-- The f-string printed at the top of `Gemini.forward`. -/
def textShapeLine (t : Tensor) : String := "Text shape: " ++ toString t.shape

/-- The `try` block of `Gemini.forward` (model.py lines 131-157): the
four-way branch on presence of `img` and `audio`.  In the source, `img` and
`audio` are local rebindings; `text` is the unencoded argument.  The
concatenation `torch.cat((text, img, audio))` carries no `dim` argument and
therefore runs along dimension 0. -/
def Gemini.tryBody (m : Gemini) (t : Tensor) (img audio : Option Tensor) : BodyOut :=
  match img, audio with
  | some i, some a =>
    match m.audioEncode a with
    | Except.error e => ⟨0, 1, [], [], Except.error e⟩
    | Except.ok a2 =>
      match m.imgEncode i with
      | Except.error e => ⟨1, 1, [], [], Except.error e⟩
      | Except.ok i2 =>
        match torchCat [t, i2, a2] 0 with
        | Except.error e => ⟨1, 1, [([t, i2, a2], 0)], [], Except.error e⟩
        | Except.ok fused =>
          ⟨1, 1, [([t, i2, a2], 0)], [(t, some fused)], m.decode t (some fused)⟩
  | some i, none =>
    match m.imgEncode i with
    | Except.error e => ⟨1, 0, [], [], Except.error e⟩
    | Except.ok i2 => ⟨1, 0, [], [(t, some i2)], m.decode t (some i2)⟩
  | none, some a =>
    match m.audioEncode a with
    | Except.error e => ⟨0, 1, [], [], Except.error e⟩
    | Except.ok a2 => ⟨0, 1, [], [(t, some a2)], m.decode t (some a2)⟩
  | none, none => ⟨0, 0, [], [(t, none)], m.decode t none⟩

/-- Model of `Gemini.forward` (model.py lines 104-160).  The shape-logging `print` on
line 130 dereferences `text.shape` before the `try` block: with `text = none`
it raises, nothing is printed and no branch runs.  Any exception raised
inside the `try` block is printed with the fixed first argument
`forwardFailMsg` and re-raised unchanged (`raise` with no argument). -/
def Gemini.forward (m : Gemini) (text img audio : Option Tensor) : FwdOut :=
  match text with
  | none => ⟨[], 0, 0, [], [], Except.error noneShapeMsg⟩
  | some t =>
    let b := m.tryBody t img audio
    match b.result with
    | Except.ok r =>
      ⟨[textShapeLine t], b.imgEncCalls, b.audioEncCalls, b.cats, b.decoderCalls, Except.ok r⟩
    | Except.error e =>
      ⟨[textShapeLine t, pyPrint2 forwardFailMsg e],
        b.imgEncCalls, b.audioEncCalls, b.cats, b.decoderCalls, Except.error e⟩

/-- State-passing form of `Gemini.forward`: the method body contains no
assignment to any attribute of `self` (lines 134, 135, 143 and 151 rebind the
local names `audio` and `img` only), so each `return` and `raise` site of the
source yields the model unchanged.  Sub-module applications read `m` and are
pure, matching the specification's scope (parameters owned by the instance,
never mutated during forward evaluation). -/
def Gemini.forwardS (m : Gemini) (text img audio : Option Tensor) : Gemini × FwdOut :=
  match text with
  | none => (m, ⟨[], 0, 0, [], [], Except.error noneShapeMsg⟩)
  | some t =>
    let b := m.tryBody t img audio
    match b.result with
    | Except.ok r =>
      (m, ⟨[textShapeLine t], b.imgEncCalls, b.audioEncCalls, b.cats, b.decoderCalls,
        Except.ok r⟩)
    | Except.error e =>
      (m, ⟨[textShapeLine t, pyPrint2 forwardFailMsg e],
        b.imgEncCalls, b.audioEncCalls, b.cats, b.decoderCalls, Except.error e⟩)

/-- Model of `Gemini.__init__` (model.py lines 40-102).  The four sub-modules —
`Transformer` (with its `Decoder` attn layers), the `AutoregressiveWrapper`
around it, `ImageToTextEmbeddings` and `AudioToEmbeddings` — are built in
order inside a single `try`; any exception is printed with the fixed first
argument `geminiInitFailMsg` and re-raised unchanged (`raise e`).  The
builders are opaque external constructors; `α` is the transformer's type. -/
def geminiBuild {α : Type}
    (mkTransformer : Except String α)
    (mkDecoder : α → Except String (Tensor → Option Tensor → Except String Tensor))
    (mkImgEnc : Except String (Tensor → Except String Tensor))
    (mkAudioEnc : Except String (Tensor → Except String Tensor)) :
    Except String Gemini := do
  let tr ← mkTransformer
  let dec ← mkDecoder tr
  let ie ← mkImgEnc
  let ae ← mkAudioEnc
  pure { imgEncode := ie, audioEncode := ae, decode := dec }

/-- The `try`/`except` boundary of `Gemini.__init__` around `geminiBuild`. -/
def geminiInit {α : Type}
    (mkTransformer : Except String α)
    (mkDecoder : α → Except String (Tensor → Option Tensor → Except String Tensor))
    (mkImgEnc : Except String (Tensor → Except String Tensor))
    (mkAudioEnc : Except String (Tensor → Except String Tensor)) :
    List String × Except String Gemini :=
  match geminiBuild mkTransformer mkDecoder mkImgEnc mkAudioEnc with
  | Except.ok g => ([], Except.ok g)
  | Except.error e => ([pyPrint2 geminiInitFailMsg e], Except.error e)

/-- A concrete model instance used to exercise the definitions: identity
encoders and a decoder returning its text argument. -/
def stubGemini : Gemini where
  imgEncode := fun t => Except.ok t
  audioEncode := fun t => Except.ok t
  decode := fun t _ => Except.ok t

/-- A concrete model instance whose decoder raises. -/
def failDecodeGemini : Gemini where
  imgEncode := fun t => Except.ok t
  audioEncode := fun t => Except.ok t
  decode := fun _ _ => Except.error "decoder boom"

/-- Concrete tensors for witnesses: a text, image and audio tensor whose
(stub-encoded) embeddings all have shape `[1, 2, 3]`. -/
def t0 : Tensor := Tensor.mk [1, 2, 3]

def i0 : Tensor := Tensor.mk [1, 2, 3]

def a0 : Tensor := Tensor.mk [1, 2, 3]

/-- Claim C10: calling forward with `text` absent raises at the initial
shape-logging statement, before any of the four branches executes and before
the try boundary is entered: nothing is printed (in particular nothing with
the fixed error first argument), no encoder and no decoder is invoked, and
the exception propagates to the caller. -/
theorem forward_missing_text_raises_before_try
    (m : Gemini) (img audio : Option Tensor) :
    m.forward none img audio
      = ⟨[], 0, 0, [], [], Except.error noneShapeMsg⟩ := rfl

/-- Claim C4: calling forward with only text (img and audio absent) returns
exactly the result of directly invoking the decoder on that text, with no
encoder invoked, no `torch.cat`, and the single decoder call carrying no
prepend sequence. -/
theorem forward_text_only_refines_decoder (m : Gemini) (t : Tensor) :
    (m.forward (some t) none none).result = m.decode t none
    ∧ (m.forward (some t) none none).imgEncCalls = 0
    ∧ (m.forward (some t) none none).audioEncCalls = 0
    ∧ (m.forward (some t) none none).cats = []
    ∧ (m.forward (some t) none none).decoderCalls = [(t, none)] := by
  cases hd : m.decode t none <;>
    simp [Gemini.forward, Gemini.tryBody, hd]

/-- Claim C9: forward evaluation mutates no model state: in the state-passing
form of forward, the model coming out of every call — whichever of the four
branches runs, and whether the call returns or raises — is the model that
went in, and the observable outcome is that of the pure forward. -/
theorem forwardS_preserves_model (m : Gemini) (text img audio : Option Tensor) :
    (m.forwardS text img audio).1 = m
    ∧ (m.forwardS text img audio).2 = m.forward text img audio := by
  cases text with
  | none => exact ⟨rfl, rfl⟩
  | some t =>
    cases hb : (m.tryBody t img audio).result <;>
      simp [Gemini.forwardS, Gemini.forward, hb]

/-- Claim C1: exactly one of four behaviors is selected, keyed solely on the
presence of `img` and `audio`.  For arbitrary tensors (whose contents the
branch never consults): both present encodes both and passes the
concatenation as the prepend; image-only passes the encoded image; audio-only
passes the encoded audio; neither passes no prepend. -/
theorem forward_four_way_dispatch
    (m : Gemini) (t i a i2 a2 fused : Tensor)
    (hi : m.imgEncode i = Except.ok i2)
    (ha : m.audioEncode a = Except.ok a2)
    (hc : torchCat [t, i2, a2] 0 = Except.ok fused) :
    ((m.forward (some t) (some i) (some a)).imgEncCalls = 1
      ∧ (m.forward (some t) (some i) (some a)).audioEncCalls = 1
      ∧ (m.forward (some t) (some i) (some a)).decoderCalls = [(t, some fused)])
    ∧ ((m.forward (some t) (some i) none).imgEncCalls = 1
      ∧ (m.forward (some t) (some i) none).audioEncCalls = 0
      ∧ (m.forward (some t) (some i) none).decoderCalls = [(t, some i2)])
    ∧ ((m.forward (some t) none (some a)).imgEncCalls = 0
      ∧ (m.forward (some t) none (some a)).audioEncCalls = 1
      ∧ (m.forward (some t) none (some a)).decoderCalls = [(t, some a2)])
    ∧ ((m.forward (some t) none none).imgEncCalls = 0
      ∧ (m.forward (some t) none none).audioEncCalls = 0
      ∧ (m.forward (some t) none none).decoderCalls = [(t, none)]) := by
  refine ⟨?_, ?_, ?_, ?_⟩
  · cases hd : m.decode t (some fused) <;>
      simp [Gemini.forward, Gemini.tryBody, hi, ha, hc, hd]
  · cases hd : m.decode t (some i2) <;>
      simp [Gemini.forward, Gemini.tryBody, hi, hd]
  · cases hd : m.decode t (some a2) <;>
      simp [Gemini.forward, Gemini.tryBody, ha, hd]
  · cases hd : m.decode t none <;>
      simp [Gemini.forward, Gemini.tryBody, hd]

/-- Witness for C1 at the stub model and shape-[1,2,3] tensors, where the
dim-0 concatenation yields a shape-[3,2,3] prepend. -/
theorem forward_four_way_dispatch_witness :
    ((stubGemini.forward (some t0) (some i0) (some a0)).imgEncCalls = 1
      ∧ (stubGemini.forward (some t0) (some i0) (some a0)).audioEncCalls = 1
      ∧ (stubGemini.forward (some t0) (some i0) (some a0)).decoderCalls
          = [(t0, some (Tensor.mk [3, 2, 3]))])
    ∧ ((stubGemini.forward (some t0) (some i0) none).imgEncCalls = 1
      ∧ (stubGemini.forward (some t0) (some i0) none).audioEncCalls = 0
      ∧ (stubGemini.forward (some t0) (some i0) none).decoderCalls = [(t0, some i0)])
    ∧ ((stubGemini.forward (some t0) none (some a0)).imgEncCalls = 0
      ∧ (stubGemini.forward (some t0) none (some a0)).audioEncCalls = 1
      ∧ (stubGemini.forward (some t0) none (some a0)).decoderCalls = [(t0, some a0)])
    ∧ ((stubGemini.forward (some t0) none none).imgEncCalls = 0
      ∧ (stubGemini.forward (some t0) none none).audioEncCalls = 0
      ∧ (stubGemini.forward (some t0) none none).decoderCalls = [(t0, none)]) :=
  forward_four_way_dispatch stubGemini t0 i0 a0 i0 a0 (Tensor.mk [3, 2, 3])
    rfl rfl rfl

/-- Claim C3: when both img and audio are present, each encoder is invoked
exactly once, the single `torch.cat` receives the tuple in the order
(text, image embedding, audio embedding), and the decoder is invoked on the
original text alongside the fused prepend sequence. -/
theorem forward_both_encoders_once_ordered
    (m : Gemini) (t i a i2 a2 : Tensor)
    (hi : m.imgEncode i = Except.ok i2)
    (ha : m.audioEncode a = Except.ok a2) :
    (m.forward (some t) (some i) (some a)).imgEncCalls = 1
    ∧ (m.forward (some t) (some i) (some a)).audioEncCalls = 1
    ∧ (m.forward (some t) (some i) (some a)).cats = [([t, i2, a2], 0)]
    ∧ (∀ fused, torchCat [t, i2, a2] 0 = Except.ok fused →
        (m.forward (some t) (some i) (some a)).decoderCalls = [(t, some fused)]) := by
  refine ⟨?_, ?_, ?_, ?_⟩
  · cases hc : torchCat [t, i2, a2] 0 with
    | error e => simp [Gemini.forward, Gemini.tryBody, hi, ha, hc]
    | ok fused =>
      cases hd : m.decode t (some fused) <;>
        simp [Gemini.forward, Gemini.tryBody, hi, ha, hc, hd]
  · cases hc : torchCat [t, i2, a2] 0 with
    | error e => simp [Gemini.forward, Gemini.tryBody, hi, ha, hc]
    | ok fused =>
      cases hd : m.decode t (some fused) <;>
        simp [Gemini.forward, Gemini.tryBody, hi, ha, hc, hd]
  · cases hc : torchCat [t, i2, a2] 0 with
    | error e => simp [Gemini.forward, Gemini.tryBody, hi, ha, hc]
    | ok fused =>
      cases hd : m.decode t (some fused) <;>
        simp [Gemini.forward, Gemini.tryBody, hi, ha, hc, hd]
  · intro fused hc
    cases hd : m.decode t (some fused) <;>
      simp [Gemini.forward, Gemini.tryBody, hi, ha, hc, hd]

/-- Witness for C3 at the stub model and shape-[1,2,3] tensors. -/
theorem forward_both_encoders_once_ordered_witness :
    (stubGemini.forward (some t0) (some i0) (some a0)).imgEncCalls = 1
    ∧ (stubGemini.forward (some t0) (some i0) (some a0)).audioEncCalls = 1
    ∧ (stubGemini.forward (some t0) (some i0) (some a0)).cats = [([t0, i0, a0], 0)]
    ∧ (∀ fused, torchCat [t0, i0, a0] 0 = Except.ok fused →
        (stubGemini.forward (some t0) (some i0) (some a0)).decoderCalls
          = [(t0, some fused)]) :=
  forward_both_encoders_once_ordered stubGemini t0 i0 a0 i0 a0 rfl rfl

/-- Claim C5: for image-only input the image encoder runs exactly once and
its output is the prepend sequence, with the audio encoder never invoked;
symmetrically for audio-only input. -/
theorem forward_single_modality_encoding
    (m : Gemini) (t i a i2 a2 : Tensor)
    (hi : m.imgEncode i = Except.ok i2)
    (ha : m.audioEncode a = Except.ok a2) :
    (m.forward (some t) (some i) none).imgEncCalls = 1
    ∧ (m.forward (some t) (some i) none).audioEncCalls = 0
    ∧ (m.forward (some t) (some i) none).decoderCalls = [(t, some i2)]
    ∧ (m.forward (some t) none (some a)).audioEncCalls = 1
    ∧ (m.forward (some t) none (some a)).imgEncCalls = 0
    ∧ (m.forward (some t) none (some a)).decoderCalls = [(t, some a2)] := by
  refine ⟨?_, ?_, ?_, ?_, ?_, ?_⟩
  · cases hd : m.decode t (some i2) <;>
      simp [Gemini.forward, Gemini.tryBody, hi, hd]
  · cases hd : m.decode t (some i2) <;>
      simp [Gemini.forward, Gemini.tryBody, hi, hd]
  · cases hd : m.decode t (some i2) <;>
      simp [Gemini.forward, Gemini.tryBody, hi, hd]
  · cases hd : m.decode t (some a2) <;>
      simp [Gemini.forward, Gemini.tryBody, ha, hd]
  · cases hd : m.decode t (some a2) <;>
      simp [Gemini.forward, Gemini.tryBody, ha, hd]
  · cases hd : m.decode t (some a2) <;>
      simp [Gemini.forward, Gemini.tryBody, ha, hd]

/-- Witness for C5 at the stub model and shape-[1,2,3] tensors. -/
theorem forward_single_modality_encoding_witness :
    (stubGemini.forward (some t0) (some i0) none).imgEncCalls = 1
    ∧ (stubGemini.forward (some t0) (some i0) none).audioEncCalls = 0
    ∧ (stubGemini.forward (some t0) (some i0) none).decoderCalls = [(t0, some i0)]
    ∧ (stubGemini.forward (some t0) none (some a0)).audioEncCalls = 1
    ∧ (stubGemini.forward (some t0) none (some a0)).imgEncCalls = 0
    ∧ (stubGemini.forward (some t0) none (some a0)).decoderCalls = [(t0, some a0)] :=
  forward_single_modality_encoding stubGemini t0 i0 a0 i0 a0 rfl rfl

/-- Counterexample to C7 as stated: with `text` absent, the exception raised
by the shape-logging statement escapes `forward` while nothing at all is
printed — an exception escapes forward without being logged. -/
theorem missing_text_unlogged_cex :
    (stubGemini.forward none none none).result = Except.error noneShapeMsg
    ∧ (stubGemini.forward none none none).log = [] :=
  ⟨rfl, rfl⟩

/-- Claim C7 as amended: when `text` is present, any exception raised during
forward evaluation is printed with the fixed first argument `forwardFailMsg`
and re-raised unchanged (the very exception printed is the result), and
nothing else is printed after it. -/
theorem forward_logs_and_rethrows_when_text_present
    (m : Gemini) (t : Tensor) (img audio : Option Tensor) (e : String)
    (h : (m.forward (some t) img audio).result = Except.error e) :
    (m.forward (some t) img audio).log
      = [textShapeLine t, pyPrint2 forwardFailMsg e] := by
  cases hb : (m.tryBody t img audio).result with
  | ok r => simp [Gemini.forward, hb] at h
  | error e2 =>
    simp [Gemini.forward, hb] at h ⊢
    rw [h]

/-- Witness for the amended C7 at a model whose decoder raises. -/
theorem forward_logs_and_rethrows_witness :
    (failDecodeGemini.forward (some t0) none none).log
      = [textShapeLine t0, pyPrint2 forwardFailMsg "decoder boom"] :=
  forward_logs_and_rethrows_when_text_present failDecodeGemini t0 none none
    "decoder boom" rfl

/-- Counterexample to C6 as stated: embeddings with mismatched batch sizes
(1, 2 and 4) raise no error — `torch.cat` runs along dimension 0, the batch
sizes add, and forward silently passes the fused tensor to the decoder and
returns. -/
theorem batch_mismatch_cat_silent_cex :
    torchCat [Tensor.mk [1, 2, 3], Tensor.mk [2, 2, 3], Tensor.mk [4, 2, 3]] 0
      = Except.ok (Tensor.mk [7, 2, 3])
    ∧ (stubGemini.forward (some (Tensor.mk [1, 2, 3])) (some (Tensor.mk [2, 2, 3]))
        (some (Tensor.mk [4, 2, 3]))).decoderCalls
      = [(Tensor.mk [1, 2, 3], some (Tensor.mk [7, 2, 3]))]
    ∧ (stubGemini.forward (some (Tensor.mk [1, 2, 3])) (some (Tensor.mk [2, 2, 3]))
        (some (Tensor.mk [4, 2, 3]))).result = Except.ok (Tensor.mk [1, 2, 3]) :=
  ⟨rfl, rfl, rfl⟩

/-- Claim C6 as amended: a mismatched hidden dimension (or any shape mismatch
outside dimension 0) makes `torch.cat` raise, so forward surfaces an error
and never reaches the decoder; but a mismatched batch size alone surfaces no
error, because the concatenation runs along the batch axis, where the sizes
simply add. -/
theorem cat_mismatch_error_amended
    (m : Gemini) (t i a i2 a2 : Tensor)
    (hi : m.imgEncode i = Except.ok i2)
    (ha : m.audioEncode a = Except.ok a2) :
    (catShape 0 [t.shape, i2.shape, a2.shape] = none →
      (m.forward (some t) (some i) (some a)).result = Except.error catMismatchMsg
      ∧ (m.forward (some t) (some i) (some a)).decoderCalls = [])
    ∧ (∀ b1 s1 d1 b2 s2 d2 b3 s3 d3 : Nat,
        t.shape = [b1, s1, d1] → i2.shape = [b2, s2, d2] → a2.shape = [b3, s3, d3] →
        d1 ≠ d2 → catShape 0 [t.shape, i2.shape, a2.shape] = none)
    ∧ (∀ b1 b2 b3 s d : Nat,
        t.shape = [b1, s, d] → i2.shape = [b2, s, d] → a2.shape = [b3, s, d] →
        (m.forward (some t) (some i) (some a)).decoderCalls
          = [(t, some (Tensor.mk [b1 + b2 + b3, s, d]))]) := by
  refine ⟨?_, ?_, ?_⟩
  · intro hcn
    have hc : torchCat [t, i2, a2] 0 = Except.error catMismatchMsg := by
      simp [torchCat, hcn]
    simp [Gemini.forward, Gemini.tryBody, hi, ha, hc]
  · intro b1 s1 d1 b2 s2 d2 b3 s3 d3 ht hi2 ha2 hne
    rw [ht, hi2, ha2]
    simp only [catShape, List.all_cons, List.all_nil, catCompatible,
      Bool.and_true, Bool.and_eq_true, beq_iff_eq]
    rw [if_neg]
    rintro ⟨-, ⟨-, hEq⟩, -⟩
    rw [List.eraseIdx] at hEq
    injection hEq with h1 h2
    injection h2 with h3 h4
    exact hne h3.symm
  · intro b1 b2 b3 s d ht hi2 ha2
    have hc : torchCat [t, i2, a2] 0 = Except.ok (Tensor.mk [b1 + b2 + b3, s, d]) := by
      simp [torchCat, catShape, ht, hi2, ha2, catCompatible, List.set]
    cases hd : m.decode t (some (Tensor.mk [b1 + b2 + b3, s, d])) <;>
      simp [Gemini.forward, Gemini.tryBody, hi, ha, hc, hd]

/-- Witness for the amended C6: a hidden-dimension mismatch (3 versus 4)
surfaces as an error from forward. -/
theorem cat_mismatch_error_amended_witness :
    (stubGemini.forward (some (Tensor.mk [1, 2, 3])) (some (Tensor.mk [1, 2, 4]))
        (some (Tensor.mk [1, 2, 3]))).result = Except.error catMismatchMsg :=
  ((cat_mismatch_error_amended stubGemini (Tensor.mk [1, 2, 3]) (Tensor.mk [1, 2, 4])
      (Tensor.mk [1, 2, 3]) (Tensor.mk [1, 2, 4]) (Tensor.mk [1, 2, 3])
      rfl rfl).1 (by decide)).1

/-- Claim C2 fails on the code (code bug): `torch.cat((text, img, audio))`
carries no `dim` argument and so concatenates along dimension 0, the batch
axis.  On three shape-[1, 2, 3] inputs the fused prepend has shape
[3, 2, 3] — batch size is not preserved — whereas the sequence-axis
concatenation the spec (and the source's own commented-out `dim=1` variant)
describes would yield shape [1, 6, 3]. -/
theorem forward_both_concat_batch_axis :
    (stubGemini.forward (some t0) (some i0) (some a0)).decoderCalls
      = [(t0, some (Tensor.mk [3, 2, 3]))]
    ∧ torchCat [t0, i0, a0] 1 = Except.ok (Tensor.mk [1, 6, 3])
    ∧ Tensor.mk [3, 2, 3] ≠ Tensor.mk [1, 6, 3] :=
  ⟨rfl, rfl, by decide⟩

/-- Claim C8: any exception raised while building the sub-modules is caught
at the single outer boundary of the constructor, printed with the fixed
first argument `geminiInitFailMsg`, and re-raised unchanged — the caller
gets the original exception and no model; when construction succeeds,
nothing is printed. -/
theorem geminiInit_logs_and_rethrows {α : Type}
    (mkTransformer : Except String α)
    (mkDecoder : α → Except String (Tensor → Option Tensor → Except String Tensor))
    (mkImgEnc : Except String (Tensor → Except String Tensor))
    (mkAudioEnc : Except String (Tensor → Except String Tensor)) :
    (∀ e, geminiBuild mkTransformer mkDecoder mkImgEnc mkAudioEnc = Except.error e →
      geminiInit mkTransformer mkDecoder mkImgEnc mkAudioEnc
        = ([pyPrint2 geminiInitFailMsg e], Except.error e))
    ∧ (∀ g, geminiBuild mkTransformer mkDecoder mkImgEnc mkAudioEnc = Except.ok g →
      geminiInit mkTransformer mkDecoder mkImgEnc mkAudioEnc = ([], Except.ok g)) := by
  constructor
  · intro e h
    simp [geminiInit, h]
  · intro g h
    simp [geminiInit, h]

/-- Witness for C8: the transformer builder raising on invalid
hyperparameters is printed with the fixed first argument and re-raised. -/
theorem geminiInit_logs_and_rethrows_witness :
    geminiInit (Except.error "invalid hyperparameters" : Except String Unit)
        (fun _ => Except.ok fun t _ => Except.ok t)
        (Except.ok fun t => Except.ok t)
        (Except.ok fun t => Except.ok t)
      = ([pyPrint2 geminiInitFailMsg "invalid hyperparameters"],
          Except.error "invalid hyperparameters") :=
  (geminiInit_logs_and_rethrows (Except.error "invalid hyperparameters")
      (fun _ => Except.ok fun t _ => Except.ok t)
      (Except.ok fun t => Except.ok t)
      (Except.ok fun t => Except.ok t)).1 "invalid hyperparameters" rfl

end GeminiModel
